import Mathlib

/-!
Shallow embedding of `src/flask-app/app.py`: a minimal Flask service with
three routes (`/`, `/health`, `/api/info`) returning JSON payloads, run on
host `0.0.0.0`, port `5000`, debug disabled.

The handlers are pure given the ambient process state (environment variables
and host name), which we pass explicitly as `SysEnv`.  Responses are JSON
objects whose values are all strings, so a response body is modelled as an
ordered association list `List (String × String)` (or `none` for responses
without a JSON body, such as framework error pages and HEAD/OPTIONS replies).
Flask routing defaults (404 on unmatched path, 405 on disallowed method,
automatic HEAD and OPTIONS on every GET route) are embedded in `dispatch`.
-/

namespace FlaskDemo

/-- Ambient process state read by the handlers: `os.getenv` and
`socket.gethostname()`. -/
structure SysEnv where
  getenv : String → Option String
  hostname : String

/-- HTTP methods relevant to the routing layer. -/
inductive Method where
  | GET
  | HEAD
  | OPTIONS
  | POST
  | PUT
  | DELETE
  | PATCH
deriving DecidableEq, Repr

/-- An inbound HTTP request.  Handlers in `app.py` never read anything but
the path and the method; headers, query string and body are carried so that
noninterference can be stated. -/
structure Request where
  method : Method
  path : String
  headers : List (String × String)
  query : List (String × String)
  body : String
deriving Repr

/-- An HTTP response: status code, Content-Type header value, and the JSON
object body when there is one (all payloads of this app are flat objects of
string keys to string values). -/
structure HttpResponse where
  status : Nat
  contentType : String
  body : Option (List (String × String))
deriving DecidableEq, Repr

/-- Look up a key of the JSON object body of a response. -/
def HttpResponse.field (r : HttpResponse) (k : String) : Option String :=
  match r.body with
  | none => none
  | some kvs => (kvs.find? (fun kv => kv.1 == k)).map Prod.snd

/-- The keys of the JSON object body, in order. -/
def HttpResponse.keys (r : HttpResponse) : List String :=
  match r.body with
  | none => []
  | some kvs => kvs.map Prod.fst

/-- Handler of `GET /` (`home` in app.py): `jsonify` of the literal dict,
with the hostname read at call time. -/
def home (e : SysEnv) : HttpResponse :=
  { status := 200
    contentType := "application/json"
    body := some [("message", "Hello from Flask Demo!"),
                  ("hostname", e.hostname),
                  ("version", "1.0.0")] }

/-- Handler of `GET /health` (`health` in app.py): `jsonify({'status': 'healthy'}), 200`. -/
def health (_e : SysEnv) : HttpResponse :=
  { status := 200
    contentType := "application/json"
    body := some [("status", "healthy")] }

/-- Handler of `GET /api/info` (`info` in app.py): the environment variable
`ENVIRONMENT` is read per request via `os.getenv('ENVIRONMENT', 'production')`,
the hostname via `socket.gethostname()`. -/
def info (e : SysEnv) : HttpResponse :=
  { status := 200
    contentType := "application/json"
    body := some [("app", "Flask Demo Container"),
                  ("environment", (e.getenv "ENVIRONMENT").getD "production"),
                  ("hostname", e.hostname)] }

/-- The paths registered by the three `@app.route` decorators. -/
def routes : List String := ["/", "/health", "/api/info"]

/-- Flask adds HEAD and OPTIONS automatically to a route declared with the
default method set (GET); every other method is rejected with 405. -/
def methodAllowed (m : Method) : Bool :=
  match m with
  | .GET => true
  | .HEAD => true
  | .OPTIONS => true
  | _ => false

/-- The GET response of a registered path. -/
def getResponse (path : String) (e : SysEnv) : HttpResponse :=
  if path = "/" then home e
  else if path = "/health" then health e
  else info e

/-- Request dispatch, embedding the app's route table together with Flask's
default routing behavior: unmatched paths get a generic 404 page, a matched
path with a method outside the automatic `{GET, HEAD, OPTIONS}` set gets a
405 page, HEAD gets the GET response with the body stripped, and OPTIONS is
answered automatically with an empty 200.  No handler reads the request's
headers, query string or body. -/
def dispatch (req : Request) (e : SysEnv) : HttpResponse :=
  if routes.contains req.path then
    match req.method with
    | .GET => getResponse req.path e
    | .HEAD => { getResponse req.path e with body := none }
    | .OPTIONS => { status := 200, contentType := "text/html; charset=utf-8", body := none }
    | _ => { status := 405, contentType := "text/html; charset=utf-8", body := none }
  else
    { status := 404, contentType := "text/html; charset=utf-8", body := none }

/-- The configuration passed to `app.run` in the `__main__` block. -/
structure ServerConfig where
  host : String
  port : Nat
  debug : Bool
deriving DecidableEq, Repr

/-- `app.run(host='0.0.0.0', port=5000, debug=False)`. -/
def mainConfig : ServerConfig :=
  { host := "0.0.0.0", port := 5000, debug := false }

/-- Outcome of the `__main__` block: either the server is up and serving
(until externally terminated), or startup aborted. -/
inductive MainOutcome where
  | serving (cfg : ServerConfig)
  | exitFailure (msg : String)
deriving DecidableEq, Repr

/-- Process exit code of an outcome: serving never exits on its own (treated
as exit 0 on external termination); a startup failure is a non-zero exit. -/
def MainOutcome.exitCode : MainOutcome → Nat
  | .serving _ => 0
  | .exitFailure _ => 1

/-- Modelled from the spec: the bind step of `app.run` lives in Flask and
Werkzeug, not under src/; it either succeeds or raises with a diagnostic
message (e.g., address already in use).  `app.py` wraps `app.run` in no
exception handler, so a raised bind error propagates unchanged and the
process aborts with a non-zero exit; on success the server serves with
`mainConfig` until terminated externally.  No retry or recovery logic
exists anywhere in `app.py`. -/
def runMain (bindResult : Except String Unit) : MainOutcome :=
  match bindResult with
  | .ok _ => .serving mainConfig
  | .error msg => .exitFailure msg

/-! Concrete instances used by the witness theorems. -/

/-- A concrete process state with `ENVIRONMENT` unset. -/
def envA : SysEnv := { getenv := fun _ => none, hostname := "host-a" }

/-- A concrete process state with `ENVIRONMENT=staging` and another hostname. -/
def envB : SysEnv :=
  { getenv := fun k => if k = "ENVIRONMENT" then some "staging" else none
    hostname := "host-b" }

/-- A plain GET request to a path with no headers, query or body. -/
def mkGet (p : String) : Request :=
  { method := .GET, path := p, headers := [], query := [], body := "" }

/-- Helper: the GET response of a registered path depends on the process
state only through `ENVIRONMENT` and the hostname. -/
theorem getResponse_congr (path : String) (e1 e2 : SysEnv)
    (henv : e1.getenv "ENVIRONMENT" = e2.getenv "ENVIRONMENT")
    (hh : e1.hostname = e2.hostname) :
    getResponse path e1 = getResponse path e2 := by
  unfold getResponse
  split_ifs <;> simp [home, health, info, henv, hh]

/-- C1: every GET request to `/` is answered with status 200, Content-Type
`application/json`, a JSON object with exactly the keys `message`,
`hostname`, `version`, where `message = "Hello from Flask Demo!"`,
`version = "1.0.0"` and `hostname` is the host name at call time. -/
theorem home_route_spec (e : SysEnv) (req : Request)
    (hm : req.method = Method.GET) (hp : req.path = "/") :
    (dispatch req e).status = 200 ∧
    (dispatch req e).contentType = "application/json" ∧
    (dispatch req e).keys = ["message", "hostname", "version"] ∧
    (dispatch req e).field "message" = some "Hello from Flask Demo!" ∧
    (dispatch req e).field "version" = some "1.0.0" ∧
    (dispatch req e).field "hostname" = some e.hostname := by
  simp [dispatch, hm, hp, routes, getResponse, home,
    HttpResponse.keys, HttpResponse.field, List.find?]

/-- Witness for C1 at a concrete request and process state. -/
theorem home_route_spec_witness :
    (dispatch (mkGet "/") envA).status = 200 ∧
    (dispatch (mkGet "/") envA).contentType = "application/json" ∧
    (dispatch (mkGet "/") envA).keys = ["message", "hostname", "version"] ∧
    (dispatch (mkGet "/") envA).field "message" = some "Hello from Flask Demo!" ∧
    (dispatch (mkGet "/") envA).field "version" = some "1.0.0" ∧
    (dispatch (mkGet "/") envA).field "hostname" = some envA.hostname :=
  home_route_spec envA (mkGet "/") rfl rfl

/-- C2: every GET request to `/health` is answered with status 200 and the
JSON body is exactly the object with the single key `status` mapped to
`"healthy"`. -/
theorem health_route_spec (e : SysEnv) (req : Request)
    (hm : req.method = Method.GET) (hp : req.path = "/health") :
    (dispatch req e).status = 200 ∧
    (dispatch req e).contentType = "application/json" ∧
    (dispatch req e).body = some [("status", "healthy")] := by
  simp [dispatch, hm, hp, routes, getResponse, health]

/-- Witness for C2 at a concrete request and process state. -/
theorem health_route_spec_witness :
    (dispatch (mkGet "/health") envB).status = 200 ∧
    (dispatch (mkGet "/health") envB).contentType = "application/json" ∧
    (dispatch (mkGet "/health") envB).body = some [("status", "healthy")] :=
  health_route_spec envB (mkGet "/health") rfl rfl

/-- C3: every GET request to `/api/info` is answered with status 200; its
`environment` field equals the value of the `ENVIRONMENT` process variable
when set and `"production"` when unset, `app = "Flask Demo Container"`, and
`hostname` is the host name. -/
theorem info_route_spec (e : SysEnv) (req : Request)
    (hm : req.method = Method.GET) (hp : req.path = "/api/info") :
    (dispatch req e).status = 200 ∧
    (dispatch req e).field "app" = some "Flask Demo Container" ∧
    (dispatch req e).field "hostname" = some e.hostname ∧
    (∀ v, e.getenv "ENVIRONMENT" = some v →
      (dispatch req e).field "environment" = some v) ∧
    (e.getenv "ENVIRONMENT" = none →
      (dispatch req e).field "environment" = some "production") := by
  refine ⟨?_, ?_, ?_, fun v hv => ?_, fun hv => ?_⟩
  · simp [dispatch, hm, hp, routes, getResponse, info]
  · simp [dispatch, hm, hp, routes, getResponse, info, HttpResponse.field, List.find?]
  · simp [dispatch, hm, hp, routes, getResponse, info, HttpResponse.field, List.find?]
  · simp [dispatch, hm, hp, routes, getResponse, info, HttpResponse.field, List.find?, hv]
  · simp [dispatch, hm, hp, routes, getResponse, info, HttpResponse.field, List.find?, hv]

/-- Witness for C3 at a concrete request with `ENVIRONMENT=staging`. -/
theorem info_route_spec_witness :
    (dispatch (mkGet "/api/info") envB).status = 200 ∧
    (dispatch (mkGet "/api/info") envB).field "app" = some "Flask Demo Container" ∧
    (dispatch (mkGet "/api/info") envB).field "hostname" = some envB.hostname ∧
    (∀ v, envB.getenv "ENVIRONMENT" = some v →
      (dispatch (mkGet "/api/info") envB).field "environment" = some v) ∧
    (envB.getenv "ENVIRONMENT" = none →
      (dispatch (mkGet "/api/info") envB).field "environment" = some "production") :=
  info_route_spec envB (mkGet "/api/info") rfl rfl

/-- C4: a request whose path is none of `/`, `/health`, `/api/info` gets the
framework's generic 404; a request to one of those paths with a method
outside the automatic set gets the framework's 405.  No application-level
error logic exists: both pages come from the routing layer in `dispatch`,
not from any handler. -/
theorem framework_error_routing (e : SysEnv) (req : Request) :
    (req.path ∉ routes → (dispatch req e).status = 404) ∧
    (req.path ∈ routes → methodAllowed req.method = false →
      (dispatch req e).status = 405) := by
  constructor
  · intro h
    simp [dispatch, h]
  · intro h hm
    cases hme : req.method <;> simp [hme, methodAllowed] at hm ⊢ <;>
      simp [dispatch, h, hme]

/-- Witness for C4: `/nope` is 404; POST to `/health` is 405. -/
theorem framework_error_routing_witness :
    (dispatch (mkGet "/nope") envA).status = 404 ∧
    (dispatch { mkGet "/health" with method := .POST } envA).status = 405 :=
  ⟨(framework_error_routing envA (mkGet "/nope")).1 (by decide),
   (framework_error_routing envA { mkGet "/health" with method := .POST }).2
     (by decide) rfl⟩

/-- C5: two GET requests to the same route, served under process states that
agree on the value of `ENVIRONMENT` and on the host name, produce identical
responses. -/
theorem repeat_request_determinism (e1 e2 : SysEnv) (r1 r2 : Request)
    (hm1 : r1.method = Method.GET) (hm2 : r2.method = Method.GET)
    (hp : r1.path = r2.path)
    (henv : e1.getenv "ENVIRONMENT" = e2.getenv "ENVIRONMENT")
    (hh : e1.hostname = e2.hostname) :
    dispatch r1 e1 = dispatch r2 e2 := by
  simp only [dispatch, hm1, hm2, hp]
  split
  · exact getResponse_congr r2.path e1 e2 henv hh
  · rfl

/-- Witness for C5: two distinct GET requests to `/api/info` under two
distinct process states agreeing on `ENVIRONMENT` and host name. -/
theorem repeat_request_determinism_witness :
    dispatch (mkGet "/api/info") envA
      = dispatch { mkGet "/api/info" with headers := [("X-Req", "2")] }
          { getenv := fun _ => none, hostname := "host-a" } :=
  repeat_request_determinism envA
    { getenv := fun _ => none, hostname := "host-a" }
    (mkGet "/api/info") { mkGet "/api/info" with headers := [("X-Req", "2")] }
    rfl rfl rfl rfl rfl

/-- C6: `ENVIRONMENT` and the host name are read per request, not cached: a
request to `/api/info` served under process state `e2` carries `e2`'s values,
whatever an earlier state `e1` held; if the two states give `ENVIRONMENT`
different effective values, the two responses differ on that field. -/
theorem env_read_at_request_time (e1 e2 : SysEnv) (req : Request)
    (hm : req.method = Method.GET) (hp : req.path = "/api/info") :
    (dispatch req e1).field "environment"
      = some ((e1.getenv "ENVIRONMENT").getD "production") ∧
    (dispatch req e2).field "environment"
      = some ((e2.getenv "ENVIRONMENT").getD "production") ∧
    (dispatch req e2).field "hostname" = some e2.hostname := by
  refine ⟨?_, ?_, ?_⟩ <;>
    simp [dispatch, hm, hp, routes, getResponse, info, HttpResponse.field, List.find?]

/-- Witness for C6: the same request under `ENVIRONMENT` unset and then
under `ENVIRONMENT=staging` reports `production` and then `staging`. -/
theorem env_read_at_request_time_witness :
    (dispatch (mkGet "/api/info") envA).field "environment"
      = some ((envA.getenv "ENVIRONMENT").getD "production") ∧
    (dispatch (mkGet "/api/info") envB).field "environment"
      = some ((envB.getenv "ENVIRONMENT").getD "production") ∧
    (dispatch (mkGet "/api/info") envB).field "hostname" = some envB.hostname :=
  env_read_at_request_time envA envB (mkGet "/api/info") rfl rfl

/-- C7: noninterference with request content: two requests with the same
method and path — differing arbitrarily in headers, query string and body —
get identical responses under the same process state; no handler reads any
part of the request beyond its routing key. -/
theorem request_content_noninterference (e : SysEnv) (r1 r2 : Request)
    (hm : r1.method = r2.method) (hp : r1.path = r2.path) :
    dispatch r1 e = dispatch r2 e := by
  simp [dispatch, hm, hp]

/-- Witness for C7: a bare GET and a GET loaded with headers, query and body
to `/` get the same response. -/
theorem request_content_noninterference_witness :
    dispatch (mkGet "/") envB
      = dispatch { method := .GET, path := "/",
                   headers := [("Authorization", "secret")],
                   query := [("q", "x")], body := "payload" } envB :=
  request_content_noninterference envB (mkGet "/")
    { method := .GET, path := "/", headers := [("Authorization", "secret")],
      query := [("q", "x")], body := "payload" }
    rfl rfl

/-- C8: on each registered route the accepted method set is exactly
`{GET, HEAD, OPTIONS}` — those three succeed with status 200, every other
method is rejected with 405. -/
theorem default_method_set (e : SysEnv) (req : Request)
    (hp : req.path ∈ routes) :
    (methodAllowed req.method = true → (dispatch req e).status = 200) ∧
    (methodAllowed req.method = false → (dispatch req e).status = 405) := by
  constructor <;> intro hm <;>
    cases hme : req.method <;> simp [hme, methodAllowed] at hm <;>
      simp [dispatch, hp, hme, getResponse, home, health, info] <;>
      split_ifs <;> simp [home, health, info]

/-- Witness for C8: HEAD to `/` succeeds with 200; DELETE to `/` is 405. -/
theorem default_method_set_witness :
    (dispatch { mkGet "/" with method := .HEAD } envA).status = 200 ∧
    (dispatch { mkGet "/" with method := .DELETE } envA).status = 405 :=
  ⟨(default_method_set envA { mkGet "/" with method := .HEAD } (by decide)).1 rfl,
   (default_method_set envA { mkGet "/" with method := .DELETE } (by decide)).2 rfl⟩

/-- C9: run as the main program, the server binds to all interfaces
(`0.0.0.0`) on TCP port 5000 with debug disabled, and on a successful bind
it is serving (it only stops when terminated externally). -/
theorem main_run_config :
    mainConfig.host = "0.0.0.0" ∧ mainConfig.port = 5000 ∧
    mainConfig.debug = false ∧
    runMain (Except.ok ()) = MainOutcome.serving mainConfig :=
  ⟨rfl, rfl, rfl, rfl⟩

/-- C10: a bind failure at startup aborts the process with a non-zero exit,
carrying the diagnostic message unchanged; no retry or recovery runs (the
outcome is never `serving`). -/
theorem bind_failure_aborts (msg : String) :
    runMain (Except.error msg) = MainOutcome.exitFailure msg ∧
    (runMain (Except.error msg)).exitCode ≠ 0 ∧
    ∀ cfg, runMain (Except.error msg) ≠ MainOutcome.serving cfg := by
  refine ⟨rfl, by simp [runMain, MainOutcome.exitCode], fun cfg => by simp [runMain]⟩

end FlaskDemo
